import Mathlib

/-!
# Verification of `LoLMatchProcessor.py`

A shallow embedding of the data model and the operations of
`src/LoLMatchProcessor.py`:

* the minute-14 snapshot extractor `get_14_min_stats` (eligibility filters,
  the participant / frame-14 inner join, the event-aggregation counters);
* the HTTP fetch layer `fetch_with_retry` and `_safe_get` (modelled over an
  abstract sequence of HTTP responses, where a response body of `none` stands
  for a body that `resp.json()` fails to parse);
* the six role-differential transforms `role_gold_diff`, `role_xp_diff`,
  `role_cs_diff`, `role_kill_diff`, `role_deaths_diff`, `role_vision_diff`.

Numeric columns that Python holds as `float` are modelled as `ℚ` (the Python
divisions involved — integer values divided by 14 or by 2 — are exact in
binary floating point, so `ℚ` matches the float results here).  Python dict
`.get` lookups are modelled with `Option`; a pandas `DataFrame` is modelled
as a `List` of row structures in row order.
-/

namespace LoLMatch

/-- One entry of `match_data.info.participants`, restricted to the columns
`get_14_min_stats` selects (line 152-154 of the source). -/
structure ParticipantSummary where
  participantId : Int
  championName : String
  teamId : Int
  firstBloodKill : Bool
  teamPosition : String
  win : Bool
  deriving Repr, DecidableEq

/-- The fields of one `participantFrames` value that the extractor reads. -/
structure PFrame where
  totalGold : Int := 0
  xp : Int := 0
  level : Int := 0
  minionsKilled : Int := 0
  jungleMinionsKilled : Int := 0
  deriving Repr, DecidableEq

/-- A timeline event.  Fields read with Python `event.get(...)` are `Option`s
(`none` models an absent key); `type` is read with `event['type']` and is
always present on real payloads, so it is a plain `String`. -/
structure Event where
  type : String
  timestamp : Option Int := none
  killerId : Option Int := none
  victimId : Option Int := none
  assistingParticipantIds : Option (List Int) := none
  buildingType : Option String := none
  monsterType : Option String := none
  killerTeamId : Option Int := none
  wardType : Option String := none
  creatorId : Option Int := none
  deriving Repr, DecidableEq

/-- One timeline frame.  `participantFrames` is an association list from the
(int-converted) dict key to the frame data, in dict insertion order; `none`
models a frame dict without a `participantFrames` key (the
`'participantFrames' not in frames[14]` check).  `events` models
`frame.get('events', [])`. -/
structure Frame where
  participantFrames : Option (List (Int × PFrame)) := none
  events : List Event := []
  deriving Repr, DecidableEq

/-- The `match_data.metadata` record. -/
structure Metadata where
  matchId : String
  deriving Repr, DecidableEq

/-- The parts of `match_data.info` the extractor reads.  `queueId` is read
with `.get('queueId')` (may be absent), `gameVersion` with
`.get('gameVersion', '')` (default already applied). -/
structure MatchInfo where
  queueId : Option Int := none
  gameVersion : String := ""
  participants : List ParticipantSummary := []
  deriving Repr, DecidableEq

/-- A match summary payload. -/
structure MatchData where
  metadata : Metadata
  info : MatchInfo
  deriving Repr, DecidableEq

/-- A timeline payload: `timeline_data.info.frames`. -/
structure Timeline where
  frames : List Frame := []
  deriving Repr, DecidableEq

/-- Python `s.startswith(p)`, over the character sequences of the two
strings. -/
def startswith (s p : String) : Bool :=
  p.data.isPrefixOf s.data

/-- The events the aggregation loop of `get_14_min_stats` processes: the
events of frames 0 through 14 (`frames[:15]`), keeping only those whose
timestamp (`event.get('timestamp', 0)`) is at most 840000 ms (the loop
`continue`s on `t > 840000`, lines 186-190). -/
def windowEvents (frames : List Frame) : List Event :=
  ((frames.take 15).flatMap Frame.events).filter (fun e => e.timestamp.getD 0 ≤ 840000)

/-- Value of `kills_14[pid]` after the aggregation loop: one count per CHAMPION_KILL
event whose `killerId` is present and truthy (`if killer:` — Python treats
both a missing key and id 0 as falsy) and equal to `pid`. -/
def kills_count (evs : List Event) (pid : Int) : Nat :=
  evs.countP (fun e => e.type == "CHAMPION_KILL" && e.killerId == some pid && !(pid == 0))

/-- Value of `deaths_14[pid]`: CHAMPION_KILL events with truthy `victimId = pid`. -/
def deaths_count (evs : List Event) (pid : Int) : Nat :=
  evs.countP (fun e => e.type == "CHAMPION_KILL" && e.victimId == some pid && !(pid == 0))

/-- Value of `assists_14[pid]`: each occurrence of `pid` in a CHAMPION_KILL event's
`assistingParticipantIds` list (default `[]`) counts once; the loop
`for aid in assist` applies no truthiness test to `aid`. -/
def assists_count (evs : List Event) (pid : Int) : Nat :=
  (evs.map (fun e =>
    if e.type == "CHAMPION_KILL" then (e.assistingParticipantIds.getD []).count pid
    else 0)).sum

/-- Value of `plates_taken[pid]`: TURRET_PLATE_DESTROYED events with truthy
`killerId = pid`. -/
def plates_count (evs : List Event) (pid : Int) : Nat :=
  evs.countP (fun e => e.type == "TURRET_PLATE_DESTROYED" && e.killerId == some pid && !(pid == 0))

/-- Value of `towers_killed[pid]`: BUILDING_KILL events on a TOWER_BUILDING with
truthy `killerId = pid`. -/
def towers_count (evs : List Event) (pid : Int) : Nat :=
  evs.countP (fun e => e.type == "BUILDING_KILL" && e.buildingType == some "TOWER_BUILDING"
    && e.killerId == some pid && !(pid == 0))

/-- Value of `dragons[team]`: ELITE_MONSTER_KILL events with truthy
`killerTeamId = team` and `monsterType = DRAGON`. -/
def dragons_count (evs : List Event) (team : Int) : Nat :=
  evs.countP (fun e => e.type == "ELITE_MONSTER_KILL" && e.killerTeamId == some team
    && !(team == 0) && e.monsterType == some "DRAGON")

/-- Value of `horde_kills[team]`: ELITE_MONSTER_KILL events with truthy
`killerTeamId = team` and `monsterType = HORDE`. -/
def horde_count (evs : List Event) (team : Int) : Nat :=
  evs.countP (fun e => e.type == "ELITE_MONSTER_KILL" && e.killerTeamId == some team
    && !(team == 0) && e.monsterType == some "HORDE")

/-- Value of `wards_placed[pid]`: WARD_PLACED events with an eligible `wardType` and
`creatorId = pid`.  The source applies no truthiness test to `creatorId`
(`wards_placed[pid] += 1` runs for whatever `creatorId` holds), so the only
condition on the id is equality with the row's participant id used as the
map key (line 239). -/
def wards_count (evs : List Event) (pid : Int) : Nat :=
  evs.countP (fun e => e.type == "WARD_PLACED"
    && (e.wardType == some "YELLOW_TRINKET" || e.wardType == some "BLUE_TRINKET"
        || e.wardType == some "CONTROL_WARD")
    && e.creatorId == some pid)

/-- One output row of `get_14_min_stats`, with exactly the columns of the
final column selection (lines 249-257).  Rate columns are `ℚ` (Python
floats); `win` and `firstBloodKill` are the 0/1 integers after `.astype(int)`. -/
structure PlayerRow where
  match_id : String
  participantId : Int
  championName : String
  totalGold : Int
  goldPerMinute : ℚ
  minionsKilled : Int
  jungleMinionsKilled : Int
  totalMinionsKilled : Int
  csPerMinute : ℚ
  xp : Int
  level : Int
  wards_placed : Nat
  kills_14 : Nat
  deaths_14 : Nat
  assists_14 : Nat
  platesTaken_14 : Nat
  towersKilled_14 : Nat
  firstBloodKill : Nat
  teamDragonKills_14 : Nat
  teamHordeKills_14 : Nat
  teamId : Int
  teamPosition : String
  win : Nat
  deriving Repr, DecidableEq

/-- Builds one merged output row from a participant summary and its frame-14
data, with the derived columns, counter lookups, the UTILITY → SUPPORT
rename and the bool → 0/1 coercions of lines 170-248. -/
def mkRow (matchId : String) (p : ParticipantSummary) (f : PFrame) (evs : List Event) :
    PlayerRow where
  match_id := matchId
  participantId := p.participantId
  championName := p.championName
  totalGold := f.totalGold
  goldPerMinute := (f.totalGold : ℚ) / 14
  minionsKilled := f.minionsKilled
  jungleMinionsKilled := f.jungleMinionsKilled
  totalMinionsKilled := f.minionsKilled + f.jungleMinionsKilled
  csPerMinute := ((f.minionsKilled : ℚ) + (f.jungleMinionsKilled : ℚ)) / 14
  xp := f.xp
  level := f.level
  wards_placed := wards_count evs p.participantId
  kills_14 := kills_count evs p.participantId
  deaths_14 := deaths_count evs p.participantId
  assists_14 := assists_count evs p.participantId
  platesTaken_14 := plates_count evs p.participantId
  towersKilled_14 := towers_count evs p.participantId
  firstBloodKill := if p.firstBloodKill then 1 else 0
  teamDragonKills_14 := dragons_count evs p.teamId
  teamHordeKills_14 := horde_count evs p.teamId
  teamId := p.teamId
  teamPosition := if p.teamPosition == "UTILITY" then "SUPPORT" else p.teamPosition
  win := if p.win then 1 else 0

/-- Model of `get_14_min_stats(match_id, match_data, timeline_data)` (lines 133-257).
The empty DataFrame returns are the empty list.  The order of the checks is
the source's: patch prefix first (line 141), then queue id (line 146), then
the frame-14 availability check (line 156).  The pandas inner merge on
`participantId` (line 170) keeps, for each participant in summary order,
every frame-14 entry with a matching id, in frame order — exactly ten rows
only when the two key sets pair up one to one. -/
def get_14_min_stats (_match_id : String) (match_data : MatchData)
    (timeline_data : Timeline) : List PlayerRow :=
  if startswith match_data.info.gameVersion "15.9" then []
  else if match_data.info.queueId ≠ some 420 then []
  else
    let frames := timeline_data.frames
    if frames.length ≤ 14 then []
    else
      match frames[14]? with
      | none => []
      | some frame14 =>
        match frame14.participantFrames with
        | none => []
        | some pfs =>
          let evs := windowEvents frames
          match_data.info.participants.flatMap (fun p =>
            (pfs.filter (fun q => q.1 == p.participantId)).map
              (fun q => mkRow match_data.metadata.matchId p q.2 evs))

/-! ## The fetch layer -/

/-- An HTTP response as the fetch layer observes it: a status code, and the
result of trying to parse the body as JSON (`none` = `resp.json()` raises). -/
structure HttpResponse (α : Type) where
  status : Nat
  body : Option α
  deriving Repr, DecidableEq

/-- Outcome of `fetch_with_retry` on a finite prefix of the server's
response sequence: either the function returned (`result none` is Python
`None`), or it consumed every supplied response and is still looping
(`spinning` — the unbounded 429 retry loop). -/
inductive FetchOutcome (α : Type) where
  | result : Option α → FetchOutcome α
  | spinning : FetchOutcome α
  deriving Repr, DecidableEq

/-- Model of `fetch_with_retry` (lines 89-111), as a function of the sequence of
responses the server returns for the repeated request.  The body is parsed
before the status dispatch (lines 94-98), so any unparseable body returns
`None` whatever the status; then 200 returns the parsed data, 429 sleeps
10 s and re-issues the request (consuming the next response), and every
other status — 403 explicitly, all others via the final else — returns
`None`. -/
def fetch_with_retry {α : Type} : List (HttpResponse α) → FetchOutcome α
  | [] => .spinning
  | r :: rest =>
    match r.body with
    | none => .result none
    | some data =>
      if r.status = 200 then .result (some data)
      else if r.status = 429 then fetch_with_retry rest
      else .result none

/-- Total seconds `fetch_with_retry` spends in `time.sleep(10)` while
consuming the given responses: 10 per parseable 429 response consumed. -/
def fetch_with_retry_sleep {α : Type} : List (HttpResponse α) → Nat
  | [] => 0
  | r :: rest =>
    match r.body with
    | none => 0
    | some _ =>
      if r.status = 200 then 0
      else if r.status = 429 then 10 + fetch_with_retry_sleep rest
      else 0

/-- Outcome of `_safe_get`: a returned value (`ok none` is Python `None`),
or an exception propagating out of `resp.json()` on a 200 response whose
body does not parse (the source wraps that call in no try/except). -/
inductive SafeOutcome (α : Type) where
  | ok : Option α → SafeOutcome α
  | raisedParse : SafeOutcome α
  deriving Repr, DecidableEq

/-- The loop body of `_safe_get` (lines 122-131): `i` is the index of the
next response in the server's response stream, `k` the remaining loop
iterations of `for _ in range(max_retries)`.  Statuses other than 200, 429,
403, 401, 404 fall through the if/elif chain and silently consume an
attempt. -/
def safe_get_loop {α : Type} (resp : Nat → HttpResponse α) : Nat → Nat → SafeOutcome α
  | _, 0 => .ok none
  | i, k + 1 =>
    let r := resp i
    if r.status = 200 then
      match r.body with
      | some data => .ok (some data)
      | none => .raisedParse
    else if r.status = 429 then safe_get_loop resp (i + 1) k
    else if r.status = 403 ∨ r.status = 401 ∨ r.status = 404 then .ok none
    else safe_get_loop resp (i + 1) k

/-- Number of HTTP requests the loop issues from state `(i, k)`. -/
def safe_get_requests {α : Type} (resp : Nat → HttpResponse α) : Nat → Nat → Nat
  | _, 0 => 0
  | i, k + 1 =>
    let r := resp i
    if r.status = 200 then 1
    else if r.status = 429 then 1 + safe_get_requests resp (i + 1) k
    else if r.status = 403 ∨ r.status = 401 ∨ r.status = 404 then 1
    else 1 + safe_get_requests resp (i + 1) k

/-- Model of `_safe_get(url, max_retries=3)` with the default retry budget, as a
function of the server's response stream (the URL only selects the stream). -/
def safe_get {α : Type} (resp : Nat → HttpResponse α) : SafeOutcome α :=
  safe_get_loop resp 0 3

/-- Model of `fetch_match_data` (lines 114-116): builds the match URL and delegates
to `_safe_get` with the default `max_retries=3`. -/
def fetch_match_data {α : Type} (resp : Nat → HttpResponse α) : SafeOutcome α :=
  safe_get resp

/-- Model of `fetch_timeline_data` (lines 118-120): builds the timeline URL and
delegates to `_safe_get` with the default `max_retries=3`. -/
def fetch_timeline_data {α : Type} (resp : Nat → HttpResponse α) : SafeOutcome α :=
  safe_get resp

/-! ## The role-differential transforms -/

/-- Two rows are grouped together by the nested
`groupby('match_id')` / `groupby('teamPosition')` iff both keys agree. -/
def sameKey (a b : PlayerRow) : Bool :=
  a.match_id == b.match_id && a.teamPosition == b.teamPosition

/-- The value the differential column holds at the row of index `i` (row
content `r`), given the indexed row list `rows`.  The row's
(match_id, teamPosition) group, in first-seen order, is the filtered list;
only a group of exactly two rows is assigned (line 328), `p1` being the
first-seen row (`iloc[0]`): if `diff = value p1 - value p2 > 0` then `p1`
gets `+|diff|/2` and `p2` gets `-|diff|/2`, otherwise — ties included —
`p1` gets `-|diff|/2` and `p2` gets `+|diff|/2`.  Any other group size
leaves the 0.0 default set before the group loop (line 321). -/
def pairDiffValue (value : PlayerRow → ℚ) (rows : List (Nat × PlayerRow))
    (i : Nat) (r : PlayerRow) : ℚ :=
  match rows.filter (fun x => sameKey r x.2) with
  | [(i1, p1), (_, p2)] =>
    let diff := value p1 - value p2
    let half := |diff| / 2
    if diff > 0 then (if i = i1 then half else -half)
    else (if i = i1 then -half else half)
  | _ => 0

/-- The common body of the six role-differential functions (the source
repeats it verbatim six times with different column names): return the
input rows unchanged, each paired with its differential-column value. -/
def role_diff_generic (value : PlayerRow → ℚ) (players : List PlayerRow) :
    List (PlayerRow × ℚ) :=
  players.enum.map (fun x => (x.2, pairDiffValue value players.enum x.1 x.2))

/-- Model of `role_gold_diff` (lines 318-341): output column `roleGoldDiff`, value
column `totalGold`. -/
def role_gold_diff (players : List PlayerRow) : List (PlayerRow × ℚ) :=
  role_diff_generic (fun p => (p.totalGold : ℚ)) players

/-- Model of `role_xp_diff` (lines 343-362): output column `roleXpDiff`, value
column `xp`. -/
def role_xp_diff (players : List PlayerRow) : List (PlayerRow × ℚ) :=
  role_diff_generic (fun p => (p.xp : ℚ)) players

/-- Model of `role_cs_diff` (lines 364-383): output column `roleCsDiff`, value
column `totalMinionsKilled`. -/
def role_cs_diff (players : List PlayerRow) : List (PlayerRow × ℚ) :=
  role_diff_generic (fun p => (p.totalMinionsKilled : ℚ)) players

/-- Model of `role_kill_diff` (lines 385-404): output column `roleKillDiff`, value
column `kills_14`. -/
def role_kill_diff (players : List PlayerRow) : List (PlayerRow × ℚ) :=
  role_diff_generic (fun p => (p.kills_14 : ℚ)) players

/-- Model of `role_deaths_diff` (lines 406-425): output column `roleDeathsDiff`,
value column `deaths_14`. -/
def role_deaths_diff (players : List PlayerRow) : List (PlayerRow × ℚ) :=
  role_diff_generic (fun p => (p.deaths_14 : ℚ)) players

/-- Model of `role_vision_diff` (lines 427-446): output column `roleVisionDiff`,
value column `wards_placed`. -/
def role_vision_diff (players : List PlayerRow) : List (PlayerRow × ℚ) :=
  role_diff_generic (fun p => (p.wards_placed : ℚ)) players

/-- The differential-column value at row index `i` of a transform's result
(0 when `i` is out of range). -/
def vOut (f : List PlayerRow → List (PlayerRow × ℚ)) (players : List PlayerRow)
    (i : Nat) : ℚ :=
  ((f players)[i]?.map Prod.snd).getD 0

/-! ## Concrete payloads used as witnesses and counterexamples -/

/-- A participant summary with id `i` (other fields arbitrary). -/
def mkP (i : Int) : ParticipantSummary where
  participantId := i
  championName := "Ahri"
  teamId := if i ≤ 5 then 100 else 200
  firstBloodKill := false
  teamPosition := "TOP"
  win := false

/-- An eligible ranked-solo match summary with the full 10-participant
roster (ids 1..10). -/
def c1md : MatchData where
  metadata := { matchId := "NA1_1" }
  info :=
    { queueId := some 420
      gameVersion := "15.8.1"
      participants := (List.range 10).map (fun n => mkP ((n : Int) + 1)) }

/-- A frame-14 whose `participantFrames` dict holds only ids 1..9. -/
def frame14nine : Frame where
  participantFrames := some ((List.range 9).map (fun n => (((n : Int) + 1), ({} : PFrame))))

/-- A frame-14 whose `participantFrames` dict holds all ids 1..10. -/
def frame14full : Frame where
  participantFrames := some ((List.range 10).map (fun n => (((n : Int) + 1), ({} : PFrame))))

/-- A 15-frame timeline whose frame 14 has participant-frame data for only
9 of the 10 participants. -/
def c1tl : Timeline where
  frames := List.replicate 14 ({} : Frame) ++ [frame14nine]

/-- A 15-frame timeline whose frame 14 has participant-frame data for all
10 participants. -/
def c1tlFull : Timeline where
  frames := List.replicate 14 ({} : Frame) ++ [frame14full]

/-- A kill at exactly 840000 ms (the inclusive boundary): participant 1
kills participant 2. -/
def c5e840000 : Event :=
  { type := "CHAMPION_KILL", timestamp := some 840000, killerId := some 1, victimId := some 2 }

/-- A kill at 840001 ms, one millisecond past the cutoff, placed in frame
index 14: participant 2 kills participant 1. -/
def c5e840001 : Event :=
  { type := "CHAMPION_KILL", timestamp := some 840001, killerId := some 2, victimId := some 1 }

/-- An eligible two-participant match summary for the boundary scenario. -/
def c5md : MatchData where
  metadata := { matchId := "NA1_5" }
  info :=
    { queueId := some 420
      gameVersion := "15.8.1"
      participants := [mkP 1, mkP 2] }

/-- A 15-frame timeline whose frame 14 carries both boundary events. -/
def c5tl : Timeline where
  frames := List.replicate 14 ({} : Frame) ++
    [{ participantFrames := some [(1, {}), (2, {})], events := [c5e840000, c5e840001] }]

/-- An environmental CHAMPION_KILL: `killerId` 0 (no killer), victim 3,
assists 4 and 5. -/
def envKill : Event :=
  { type := "CHAMPION_KILL", killerId := some 0, victimId := some 3,
    assistingParticipantIds := some [4, 5] }

/-- An ordinary CHAMPION_KILL by participant 7 on participant 2. -/
def stdKill : Event :=
  { type := "CHAMPION_KILL", killerId := some 7, victimId := some 2 }

/-- A flex-queue (queueId 440) match summary on a non-excluded patch. -/
def c8md : MatchData where
  metadata := { matchId := "NA1_8" }
  info :=
    { queueId := some 440
      gameVersion := "15.8.1"
      participants := [mkP 1] }

/-- An empty timeline. -/
def c8tlA : Timeline where
  frames := []

/-- A nonempty timeline with a frame-14-style payload and an event. -/
def c8tlB : Timeline where
  frames := List.replicate 14 ({} : Frame) ++
    [{ participantFrames := some [(1, {}), (2, {})], events := [stdKill] }]

/-- A default player row for the role-differential scenarios. -/
def baseRow : PlayerRow where
  match_id := "M1"
  participantId := 1
  championName := "Ahri"
  totalGold := 0
  goldPerMinute := 0
  minionsKilled := 0
  jungleMinionsKilled := 0
  totalMinionsKilled := 0
  csPerMinute := 0
  xp := 0
  level := 1
  wards_placed := 0
  kills_14 := 0
  deaths_14 := 0
  assists_14 := 0
  platesTaken_14 := 0
  towersKilled_14 := 0
  firstBloodKill := 0
  teamDragonKills_14 := 0
  teamHordeKills_14 := 0
  teamId := 100
  teamPosition := "TOP"
  win := 0

/-- First-seen JUNGLE row of match M1, 10000 gold. -/
def jungler1 : PlayerRow :=
  { baseRow with teamPosition := "JUNGLE", totalGold := 10000, participantId := 1 }

/-- Second-seen JUNGLE row of match M1, 12000 gold, the opposing team. -/
def jungler2 : PlayerRow :=
  { baseRow with teamPosition := "JUNGLE", totalGold := 12000, participantId := 2, teamId := 200 }

/-- A server that answers 429 to every request. -/
def c10all429 : Nat → HttpResponse Nat := fun _ => { status := 429, body := some 1 }

/-- A server answering 500, then 429, then 200 with body 7. -/
def c10mix : Nat → HttpResponse Nat := fun i =>
  if i = 0 then { status := 500, body := some 1 }
  else if i = 1 then { status := 429, body := some 2 }
  else { status := 200, body := some 7 }

/-- A server answering 429 then 404. -/
def c10auth : Nat → HttpResponse Nat := fun i =>
  if i = 0 then { status := 429, body := some 1 }
  else { status := 404, body := some 2 }

/-- A response whose status is neither 200 nor 429 nor one of 403/401/404:
the `_safe_get` loop falls through its if/elif chain on these and retries. -/
def nonTerminal {α : Type} (r : HttpResponse α) : Prop :=
  r.status ≠ 200 ∧ r.status ≠ 403 ∧ r.status ≠ 401 ∧ r.status ≠ 404

instance {α : Type} (r : HttpResponse α) : Decidable (nonTerminal r) := by
  unfold nonTerminal; infer_instance

/-- The two-row pair property of the spec: the two rows of a valid role
group receive values summing to zero, whose gap equals the raw value gap. -/
def zeroSumPairProp (f : List PlayerRow → List (PlayerRow × ℚ))
    (value : PlayerRow → ℚ) : Prop :=
  ∀ (players : List PlayerRow) (i j : Nat)
    (hi : i < players.length) (hj : j < players.length), i ≠ j →
    players.enum.filter (fun x => sameKey players[i] x.2) =
      [(i, players[i]), (j, players[j])] →
    vOut f players i + vOut f players j = 0 ∧
    |vOut f players i - vOut f players j| = |value players[i] - value players[j]|

/-- The unpaired-role property of the spec: a row whose
(match_id, teamPosition) group does not have exactly two rows keeps the
0.0 default in the output column. -/
def unpairedZeroProp (f : List PlayerRow → List (PlayerRow × ℚ)) : Prop :=
  ∀ (players : List PlayerRow) (i : Nat) (hi : i < players.length),
    (players.enum.filter (fun x => sameKey players[i] x.2)).length ≠ 2 →
    vOut f players i = 0

/-! ## Helper lemmas -/

theorem sum_map_all_one {α : Type} (g : α → Nat) :
    ∀ l : List α, (∀ a ∈ l, g a = 1) → (l.map g).sum = l.length := by
  intro l
  induction l with
  | nil => intro _; rfl
  | cons a t ih =>
    intro h
    have ha := h a (by simp)
    have ht := ih (fun b hb => h b (by simp [hb]))
    simp [ha, ht, Nat.add_comm]

theorem roleDiff_getElem? (value : PlayerRow → ℚ) (players : List PlayerRow)
    (i : Nat) (hi : i < players.length) :
    (role_diff_generic value players)[i]? =
      some (players[i], pairDiffValue value players.enum i players[i]) := by
  rw [role_diff_generic, List.getElem?_map, List.getElem?_enum,
    List.getElem?_eq_getElem hi]
  rfl

theorem roleDiff_map_fst (value : PlayerRow → ℚ) (players : List PlayerRow) :
    (role_diff_generic value players).map Prod.fst = players := by
  rw [role_diff_generic, List.map_map]
  exact List.enum_map_snd players

theorem sameKey_trans_left {a b : PlayerRow} (h : sameKey a b = true) (c : PlayerRow) :
    sameKey b c = sameKey a c := by
  rw [sameKey, Bool.and_eq_true, beq_iff_eq, beq_iff_eq] at h
  rw [sameKey, sameKey, h.1, h.2]

theorem roleDiff_pair_values (value : PlayerRow → ℚ) (players : List PlayerRow)
    (i j : Nat) (hi : i < players.length) (hj : j < players.length) (hne : i ≠ j)
    (hgrp : players.enum.filter (fun x => sameKey players[i] x.2) =
      [(i, players[i]), (j, players[j])]) :
    vOut (role_diff_generic value) players i =
      (if value players[i] - value players[j] > 0
        then |value players[i] - value players[j]| / 2
        else -(|value players[i] - value players[j]| / 2)) ∧
    vOut (role_diff_generic value) players j =
      (if value players[i] - value players[j] > 0
        then -(|value players[i] - value players[j]| / 2)
        else |value players[i] - value players[j]| / 2) := by
  have hmem : ((j, players[j]) : Nat × PlayerRow) ∈
      players.enum.filter (fun x => sameKey players[i] x.2) := by
    rw [hgrp]; simp
  have hkey : sameKey players[i] players[j] = true := by
    simpa using (List.mem_filter.mp hmem).2
  have hgrpj : players.enum.filter (fun x => sameKey players[j] x.2) =
      [(i, players[i]), (j, players[j])] := by
    rw [List.filter_congr (fun x _ => sameKey_trans_left hkey x.2), hgrp]
  constructor
  · rw [vOut, roleDiff_getElem? value players i hi]
    rw [pairDiffValue, hgrp]
    simp
  · rw [vOut, roleDiff_getElem? value players j hj]
    rw [pairDiffValue, hgrpj]
    simp [hne.symm]

theorem roleDiff_unpaired (value : PlayerRow → ℚ) (players : List PlayerRow)
    (i : Nat) (hi : i < players.length)
    (hlen : (players.enum.filter (fun x => sameKey players[i] x.2)).length ≠ 2) :
    vOut (role_diff_generic value) players i = 0 := by
  rw [vOut, roleDiff_getElem? value players i hi]
  rw [pairDiffValue]
  rcases hl : players.enum.filter (fun x => sameKey players[i] x.2) with
    _ | ⟨a, _ | ⟨b, _ | ⟨c, t⟩⟩⟩
  · rw [hl]; rfl
  · rw [hl]; rfl
  · exact absurd (by rw [hl]; rfl) hlen
  · rw [hl]; rfl

theorem zeroSum_of_generic (value : PlayerRow → ℚ) :
    zeroSumPairProp (role_diff_generic value) value := by
  intro players i j hi hj hne hgrp
  obtain ⟨e1, e2⟩ := roleDiff_pair_values value players i j hi hj hne hgrp
  rw [e1, e2]
  rcases lt_or_ge 0 (value players[i] - value players[j]) with hd | hd
  · rw [if_pos hd, if_pos hd]
    constructor
    · ring
    · have h2 : |value players[i] - value players[j]| / 2 +
          |value players[i] - value players[j]| / 2 =
          |value players[i] - value players[j]| := by ring
      rw [sub_neg_eq_add, h2, abs_abs]
  · rw [if_neg (by exact not_lt.mpr hd), if_neg (by exact not_lt.mpr hd)]
    constructor
    · ring
    · have h2 : -(|value players[i] - value players[j]| / 2) -
          |value players[i] - value players[j]| / 2 =
          -|value players[i] - value players[j]| := by ring
      rw [h2, abs_neg, abs_abs]

theorem unpairedZero_of_generic (value : PlayerRow → ℚ) :
    unpairedZeroProp (role_diff_generic value) := by
  intro players i hi hlen
  exact roleDiff_unpaired value players i hi hlen

/-! ## Claim theorems: the role-differential transforms -/

/-- C2: for every players table and every valid role group (exactly the two
rows of indices `i` and `j` share that row's match_id and teamPosition),
each of the six role-differential transforms assigns the two rows values
with `output[p1] + output[p2] = 0` exactly and
`|output[p1] - output[p2]| = |value[p1] - value[p2]|` exactly, where the
value column is the transform's source column. -/
theorem c2_role_diff_zero_sum :
    zeroSumPairProp role_gold_diff (fun p => (p.totalGold : ℚ)) ∧
    zeroSumPairProp role_xp_diff (fun p => (p.xp : ℚ)) ∧
    zeroSumPairProp role_cs_diff (fun p => (p.totalMinionsKilled : ℚ)) ∧
    zeroSumPairProp role_kill_diff (fun p => (p.kills_14 : ℚ)) ∧
    zeroSumPairProp role_deaths_diff (fun p => (p.deaths_14 : ℚ)) ∧
    zeroSumPairProp role_vision_diff (fun p => (p.wards_placed : ℚ)) :=
  ⟨zeroSum_of_generic _, zeroSum_of_generic _, zeroSum_of_generic _,
   zeroSum_of_generic _, zeroSum_of_generic _, zeroSum_of_generic _⟩

/-- Witness for C2 at the concrete JUNGLE pair (gold 10000 vs 12000). -/
theorem c2_role_diff_zero_sum_witness :
    vOut role_gold_diff [jungler1, jungler2] 0 +
      vOut role_gold_diff [jungler1, jungler2] 1 = 0 ∧
    |vOut role_gold_diff [jungler1, jungler2] 0 -
      vOut role_gold_diff [jungler1, jungler2] 1| =
      |((jungler1.totalGold : ℚ)) - ((jungler2.totalGold : ℚ))| :=
  c2_role_diff_zero_sum.1 [jungler1, jungler2] 0 1
    (by decide) (by decide) (by decide) (by decide)

/-- C3: for a valid pair taken in source order, with
`diff = p1.value - p2.value` and `half = |diff| / 2`: if `diff > 0` then p1
gets `+half` and p2 gets `-half`, otherwise (ties included) p1 gets `-half`
and p2 gets `+half`; in particular two JUNGLE rows with totalGold 10000
(first seen) and 12000 receive roleGoldDiff -1000 and +1000. -/
theorem c3_role_diff_sign_rule :
    (∀ (value : PlayerRow → ℚ) (players : List PlayerRow) (i j : Nat)
        (hi : i < players.length) (hj : j < players.length), i ≠ j →
        players.enum.filter (fun x => sameKey players[i] x.2) =
          [(i, players[i]), (j, players[j])] →
        (value players[i] - value players[j] > 0 →
          vOut (role_diff_generic value) players i =
            |value players[i] - value players[j]| / 2 ∧
          vOut (role_diff_generic value) players j =
            -(|value players[i] - value players[j]| / 2)) ∧
        (value players[i] - value players[j] ≤ 0 →
          vOut (role_diff_generic value) players i =
            -(|value players[i] - value players[j]| / 2) ∧
          vOut (role_diff_generic value) players j =
            |value players[i] - value players[j]| / 2)) ∧
    (vOut role_gold_diff [jungler1, jungler2] 0 = -1000 ∧
     vOut role_gold_diff [jungler1, jungler2] 1 = 1000) := by
  constructor
  · intro value players i j hi hj hne hgrp
    obtain ⟨e1, e2⟩ := roleDiff_pair_values value players i j hi hj hne hgrp
    constructor
    · intro hd
      rw [e1, e2, if_pos hd, if_pos hd]
      exact ⟨rfl, rfl⟩
    · intro hd
      rw [e1, e2, if_neg (not_lt.mpr hd), if_neg (not_lt.mpr hd)]
      exact ⟨rfl, rfl⟩
  · have h := roleDiff_pair_values (fun p => (p.totalGold : ℚ)) [jungler1, jungler2] 0 1
      (by decide) (by decide) (by decide) (by decide)
    exact ⟨h.1.trans (by norm_num [jungler1, jungler2, baseRow]),
           h.2.trans (by norm_num [jungler1, jungler2, baseRow])⟩

/-- Witness for C3: the JUNGLE scenario through the general sign rule. -/
theorem c3_role_diff_sign_rule_witness :
    vOut role_gold_diff [jungler1, jungler2] 0 = -1000 ∧
    vOut role_gold_diff [jungler1, jungler2] 1 = 1000 := by
  have h := (c3_role_diff_sign_rule.1 (fun p => (p.totalGold : ℚ)) [jungler1, jungler2] 0 1
    (by decide) (by decide) (by decide) (by decide)).2
    (by norm_num [jungler1, jungler2, baseRow])
  exact ⟨h.1.trans (by norm_num [jungler1, jungler2, baseRow]),
         h.2.trans (by norm_num [jungler1, jungler2, baseRow])⟩

/-- C4: in each of the six transforms, a row whose (match_id, teamPosition)
group does not have exactly 2 rows keeps the output column at the 0.0
default that was assigned to every row before the group loop ran. -/
theorem c4_unpaired_role_zero :
    unpairedZeroProp role_gold_diff ∧
    unpairedZeroProp role_xp_diff ∧
    unpairedZeroProp role_cs_diff ∧
    unpairedZeroProp role_kill_diff ∧
    unpairedZeroProp role_deaths_diff ∧
    unpairedZeroProp role_vision_diff :=
  ⟨unpairedZero_of_generic _, unpairedZero_of_generic _, unpairedZero_of_generic _,
   unpairedZero_of_generic _, unpairedZero_of_generic _, unpairedZero_of_generic _⟩

/-- Witness for C4 at a one-row (unpaired) role group. -/
theorem c4_unpaired_role_zero_witness : vOut role_gold_diff [baseRow] 0 = 0 :=
  c4_unpaired_role_zero.1 [baseRow] 0 (by decide) (by decide)

/-- C7: each of the six transforms returns the input rows unchanged — same
rows, same order, every pre-existing column intact — with exactly the one
differential value adjoined per row (the input list itself is never
mutated, every Lean function being pure, matching the source's
`players.copy()`). -/
theorem c7_transform_preserves_rows :
    (∀ players : List PlayerRow, (role_gold_diff players).map Prod.fst = players) ∧
    (∀ players : List PlayerRow, (role_xp_diff players).map Prod.fst = players) ∧
    (∀ players : List PlayerRow, (role_cs_diff players).map Prod.fst = players) ∧
    (∀ players : List PlayerRow, (role_kill_diff players).map Prod.fst = players) ∧
    (∀ players : List PlayerRow, (role_deaths_diff players).map Prod.fst = players) ∧
    (∀ players : List PlayerRow, (role_vision_diff players).map Prod.fst = players) :=
  ⟨fun players => roleDiff_map_fst _ players, fun players => roleDiff_map_fst _ players,
   fun players => roleDiff_map_fst _ players, fun players => roleDiff_map_fst _ players,
   fun players => roleDiff_map_fst _ players, fun players => roleDiff_map_fst _ players⟩

/-- Witness for C7 at a concrete two-row table. -/
theorem c7_transform_preserves_rows_witness :
    (role_gold_diff [jungler1, jungler2]).map Prod.fst = [jungler1, jungler2] :=
  c7_transform_preserves_rows.1 [jungler1, jungler2]

/-! ## Claim theorems: the snapshot extractor -/

/-- Counterexample to C1 as stated: an eligible match (queue 420, patch
15.8.1, 15 frames, frame 14 with participant-frame data) whose summary has
the full 10 participants but whose frame-14 dict has keys 1..9 only.  The
inner join returns 9 rows — a partial roster, neither 10 nor 0. -/
theorem c1_partial_roster_possible :
    (get_14_min_stats "NA1_1" c1md c1tl).length = 9 ∧
    ¬ ((get_14_min_stats "NA1_1" c1md c1tl).length = 10 ∨
       (get_14_min_stats "NA1_1" c1md c1tl).length = 0) :=
  ⟨by decide, by decide⟩

/-- C1 (amended): for an eligible match, `get_14_min_stats` returns one row
per (participant, frame-14 entry) pair matched on participantId; hence it
returns exactly one row per summary participant — 10 rows for a 10-player
roster — exactly when every participant's id occurs exactly once among
frame-14's `participantFrames` keys, and a mismatched key combination can
produce a partial roster. -/
theorem c1_join_row_count (mid : String) (md : MatchData) (tl : Timeline)
    (hv : startswith md.info.gameVersion "15.9" = false)
    (hq : md.info.queueId = some 420)
    (fr : Frame) (pfs : List (Int × PFrame))
    (hlen : 14 < tl.frames.length)
    (hf : tl.frames[14]? = some fr)
    (hpf : fr.participantFrames = some pfs)
    (hone : ∀ p ∈ md.info.participants,
      (pfs.filter (fun q => q.1 == p.participantId)).length = 1) :
    (get_14_min_stats mid md tl).length = md.info.participants.length := by
  rw [get_14_min_stats, hv]
  simp only [Bool.false_eq_true, if_false, hq, ne_eq, not_true_eq_false,
    show ¬ tl.frames.length ≤ 14 from by omega, hf, hpf]
  rw [List.length_flatMap]
  refine sum_map_all_one _ _ ?_
  intro p hp
  simp only [Function.comp_apply, List.length_map]
  exact hone p hp

/-- Witness for C1 (amended): the same match with a complete frame-14 key
set yields exactly 10 rows. -/
theorem c1_join_row_count_witness :
    (get_14_min_stats "NA1_1" c1md c1tlFull).length = 10 := by
  have h := c1_join_row_count "NA1_1" c1md c1tlFull (by decide) (by decide)
    frame14full ((List.range 10).map (fun n => (((n : Int) + 1), ({} : PFrame))))
    (by decide) (by decide) (by decide) (by decide)
  exact h.trans (by decide)

/-- C8: a match rejected by the queue filter (queueId ≠ 420) on a
non-excluded patch yields the empty result, and the result is the same for
any two timelines whatsoever — the timeline is never consulted. -/
theorem c8_queue_filter_ignores_timeline (mid : String) (md : MatchData)
    (tl1 tl2 : Timeline)
    (hq : md.info.queueId ≠ some 420)
    (hv : startswith md.info.gameVersion "15.9" = false) :
    get_14_min_stats mid md tl1 = [] ∧
    get_14_min_stats mid md tl1 = get_14_min_stats mid md tl2 := by
  have h : ∀ tl : Timeline, get_14_min_stats mid md tl = [] := by
    intro tl
    rw [get_14_min_stats, hv]
    simp [hq]
  exact ⟨h tl1, (h tl1).trans (h tl2).symm⟩

/-- Witness for C8: a queueId 440 match, against an empty and a nonempty
timeline. -/
theorem c8_queue_filter_ignores_timeline_witness :
    get_14_min_stats "NA1_8" c8md c8tlA = [] ∧
    get_14_min_stats "NA1_8" c8md c8tlA = get_14_min_stats "NA1_8" c8md c8tlB :=
  c8_queue_filter_ignores_timeline "NA1_8" c8md c8tlA c8tlB (by decide) (by decide)

/-- Membership in a take-prefix, phrased by index. -/
theorem mem_take_iff_index {α : Type} (l : List α) (n : Nat) (a : α) :
    a ∈ l.take n ↔ ∃ i, i < n ∧ ∃ h : i < l.length, l.get ⟨i, h⟩ = a := by
  rw [List.mem_take_iff_getElem]
  constructor
  · rintro ⟨i, h, rfl⟩
    exact ⟨i, by omega, by omega, by simp [List.get_eq_getElem]⟩
  · rintro ⟨i, h1, h2, rfl⟩
    exact ⟨i, by omega, by simp [List.get_eq_getElem]⟩

/-- C5: the aggregation scans frames 0 through 14 inclusive, and within
them counts exactly the events whose timestamp is at most 840000 ms: the
window membership is characterised index-by-index, and on a concrete
eligible match an 840000 ms kill in frame 14 is counted (killer 1 gets
kills_14 = 1, victim 2 gets deaths_14 = 1) while an 840001 ms kill in the
same frame 14 contributes to no counter. -/
theorem c5_event_window_boundary :
    (∀ (frames : List Frame) (e : Event),
        e ∈ windowEvents frames ↔
          ∃ i, i ≤ 14 ∧ ∃ h : i < frames.length,
            e ∈ (frames.get ⟨i, h⟩).events ∧ e.timestamp.getD 0 ≤ 840000) ∧
    (get_14_min_stats "NA1_5" c5md c5tl).map PlayerRow.kills_14 = [1, 0] ∧
    (get_14_min_stats "NA1_5" c5md c5tl).map PlayerRow.deaths_14 = [0, 1] := by
  refine ⟨?_, by decide, by decide⟩
  intro frames e
  rw [windowEvents, List.mem_filter, List.mem_flatMap]
  constructor
  · rintro ⟨⟨fr, hfr, hev⟩, hts⟩
    rw [mem_take_iff_index] at hfr
    obtain ⟨i, hi15, h, rfl⟩ := hfr
    exact ⟨i, by omega, h, hev, by simpa using hts⟩
  · rintro ⟨i, hi14, h, hev, hts⟩
    refine ⟨⟨frames.get ⟨i, h⟩, ?_, hev⟩, by simpa using hts⟩
    rw [mem_take_iff_index]
    exact ⟨i, by omega, h, rfl⟩

/-- Witness for C5: the 840000 ms event is in the window of the concrete
timeline, the 840001 ms event is not. -/
theorem c5_event_window_boundary_witness :
    c5e840000 ∈ windowEvents c5tl.frames ∧ c5e840001 ∉ windowEvents c5tl.frames := by
  constructor
  · exact (c5_event_window_boundary.1 c5tl.frames c5e840000).mpr
      ⟨14, by omega, by decide, by decide, by decide⟩
  · intro hmem
    obtain ⟨i, _, h2, _, hts⟩ := (c5_event_window_boundary.1 c5tl.frames c5e840001).mp hmem
    exact absurd hts (by decide)

/-- Count of a middle element under `countP`. -/
theorem countP_middle (p : Event → Bool) (l1 l2 : List Event) (e : Event) :
    (l1 ++ e :: l2).countP p = (l1 ++ l2).countP p + (if p e then 1 else 0) := by
  rw [List.countP_append, List.countP_cons, List.countP_append]
  omega

/-- Contribution of a middle element to a mapped sum. -/
theorem summap_middle (g : Event → Nat) (l1 l2 : List Event) (e : Event) :
    ((l1 ++ e :: l2).map g).sum = ((l1 ++ l2).map g).sum + g e := by
  rw [List.map_append, List.sum_append, List.map_cons, List.sum_cons,
    List.map_append, List.sum_append]
  omega

theorem none_beq_someInt (x : Int) : (((none : Option Int)) == some x) = false := rfl

theorem some_beq_someInt (a b : Int) : ((some a : Option Int) == some b) = (a == b) := rfl

/-- C6: a CHAMPION_KILL with `killerId` absent or 0 increments no kill
counter while the (nonzero) victim's death counter and every listed
assistant's assist counter still advance; a CHAMPION_KILL with a nonzero
`killerId` increments exactly that killer's kill counter by one. -/
theorem c6_champion_kill_attribution (evs1 evs2 : List Event) (e : Event)
    (hck : e.type = "CHAMPION_KILL") :
    ((e.killerId = none ∨ e.killerId = some 0) →
      (∀ pid : Int, kills_count (evs1 ++ e :: evs2) pid = kills_count (evs1 ++ evs2) pid) ∧
      (∀ pid : Int, pid ≠ 0 → e.victimId = some pid →
        deaths_count (evs1 ++ e :: evs2) pid = deaths_count (evs1 ++ evs2) pid + 1) ∧
      (∀ pid : Int, assists_count (evs1 ++ e :: evs2) pid =
        assists_count (evs1 ++ evs2) pid + (e.assistingParticipantIds.getD []).count pid)) ∧
    (∀ k : Int, e.killerId = some k → k ≠ 0 →
      kills_count (evs1 ++ e :: evs2) k = kills_count (evs1 ++ evs2) k + 1 ∧
      (∀ pid : Int, pid ≠ k →
        kills_count (evs1 ++ e :: evs2) pid = kills_count (evs1 ++ evs2) pid)) := by
  constructor
  · intro hk
    refine ⟨?_, ?_, ?_⟩
    · intro pid
      rw [kills_count, kills_count, countP_middle]
      have hpe : (e.type == "CHAMPION_KILL" && e.killerId == some pid && !(pid == 0))
          = false := by
        rcases hk with hk | hk
        · rw [hk, none_beq_someInt]
          simp
        · rw [hk, some_beq_someInt]
          rcases eq_or_ne pid 0 with hp | hp
          · simp [hp]
          · rw [beq_eq_false_iff_ne.mpr (Ne.symm hp)]
            simp
      rw [hpe]
      simp
    · intro pid hp hvic
      rw [deaths_count, deaths_count, countP_middle]
      have hpe : (e.type == "CHAMPION_KILL" && e.victimId == some pid && !(pid == 0))
          = true := by
        rw [hck, hvic, some_beq_someInt, beq_eq_false_iff_ne.mpr hp]
        simp
      rw [hpe]
      simp
    · intro pid
      rw [assists_count, assists_count, summap_middle]
      simp [hck]
  · intro k hk hknz
    constructor
    · rw [kills_count, kills_count, countP_middle]
      have hpe : (e.type == "CHAMPION_KILL" && e.killerId == some k && !(k == 0))
          = true := by
        rw [hck, hk, some_beq_someInt, beq_eq_false_iff_ne.mpr hknz]
        simp
      rw [hpe]
      simp
    · intro pid hp
      rw [kills_count, kills_count, countP_middle]
      have hpe : (e.type == "CHAMPION_KILL" && e.killerId == some pid && !(pid == 0))
          = false := by
        rw [hk, some_beq_someInt, beq_eq_false_iff_ne.mpr (fun h => hp h.symm)]
        simp
      rw [hpe]
      simp

/-- Witness for C6: the environmental kill (killer id 0, victim 3, assists
4 and 5) counts no kill, one death for 3, one assist for 4; the ordinary
kill by 7 counts one kill for 7. -/
theorem c6_champion_kill_attribution_witness :
    kills_count [envKill] 3 = 0 ∧ deaths_count [envKill] 3 = 1 ∧
    assists_count [envKill] 4 = 1 ∧ kills_count [stdKill] 7 = 1 := by
  have h1 := c6_champion_kill_attribution [] [] envKill rfl
  have h2 := c6_champion_kill_attribution [] [] stdKill rfl
  refine ⟨((h1.1 (Or.inr rfl)).1 3).trans (by decide),
          ((h1.1 (Or.inr rfl)).2.1 3 (by decide) rfl).trans (by decide),
          ((h1.1 (Or.inr rfl)).2.2 4).trans (by decide),
          ((h2.2 7 rfl (by decide)).1).trans (by decide)⟩

/-! ## Claim theorems: the fetch layer -/

/-- Counterexample to C9 as stated: a 429 response whose body does not
parse as JSON makes `fetch_with_retry` return `None` immediately — the
unparseable-body rule fires before the status dispatch — instead of
retrying (retrying on a one-response sequence would leave the loop still
running, i.e. `spinning`). -/
theorem c9_unparseable_429_no_retry :
    fetch_with_retry [({ status := 429, body := none } : HttpResponse Nat)] =
      FetchOutcome.result none ∧
    fetch_with_retry ([] : List (HttpResponse Nat)) = FetchOutcome.spinning ∧
    FetchOutcome.result (none : Option Nat) ≠ FetchOutcome.spinning :=
  ⟨rfl, rfl, by decide⟩

/-- C9 (amended): `fetch_with_retry` parses the body before dispatching on
the status, so any response with an unparseable body yields `None`; among
responses whose body parses, 200 yields the parsed body, 429 sleeps 10
seconds and retries the same request against the rest of the response
sequence (unbounded), and every other status — 401, 403, 404 and all others
alike — yields `None` with no retry. -/
theorem c9_fetch_with_retry_cases (α : Type) (r : HttpResponse α)
    (rest : List (HttpResponse α)) :
    (r.body = none → fetch_with_retry (r :: rest) = FetchOutcome.result none) ∧
    (∀ d, r.body = some d → r.status = 200 →
      fetch_with_retry (r :: rest) = FetchOutcome.result (some d)) ∧
    (∀ d, r.body = some d → r.status = 429 →
      fetch_with_retry (r :: rest) = fetch_with_retry rest ∧
      fetch_with_retry_sleep (r :: rest) = 10 + fetch_with_retry_sleep rest) ∧
    (∀ d, r.body = some d → r.status ≠ 200 → r.status ≠ 429 →
      fetch_with_retry (r :: rest) = FetchOutcome.result none) := by
  refine ⟨?_, ?_, ?_, ?_⟩
  · intro hb
    simp [fetch_with_retry, hb]
  · intro d hb h200
    simp [fetch_with_retry, hb, h200]
  · intro d hb h429
    constructor
    · simp [fetch_with_retry, hb, h429]
    · simp [fetch_with_retry_sleep, hb, h429]
  · intro d hb h1 h2
    simp [fetch_with_retry, hb, h1, h2]

/-- Witness for C9 (amended): a parseable 200 returns its body; a
parseable 429 retries into the rest; a 404 returns `None` with no retry;
an unparseable 500 returns `None`. -/
theorem c9_fetch_with_retry_cases_witness :
    fetch_with_retry [({ status := 200, body := some 7 } : HttpResponse Nat)] =
      FetchOutcome.result (some 7) ∧
    fetch_with_retry
        [({ status := 429, body := some 1 } : HttpResponse Nat),
         { status := 404, body := some 2 }] =
      fetch_with_retry [({ status := 404, body := some 2 } : HttpResponse Nat)] ∧
    fetch_with_retry [({ status := 404, body := some 2 } : HttpResponse Nat)] =
      FetchOutcome.result none ∧
    fetch_with_retry [({ status := 500, body := none } : HttpResponse Nat)] =
      FetchOutcome.result none :=
  ⟨(c9_fetch_with_retry_cases Nat _ _).2.1 7 rfl rfl,
   ((c9_fetch_with_retry_cases Nat _ _).2.2.1 1 rfl rfl).1,
   (c9_fetch_with_retry_cases Nat _ _).2.2.2 2 rfl (by decide) (by decide),
   (c9_fetch_with_retry_cases Nat _ _).1 rfl⟩

/-- The `_safe_get` loop issues at most as many requests as it has
remaining iterations. -/
theorem safe_get_requests_le {α : Type} (resp : Nat → HttpResponse α) :
    ∀ (k i : Nat), safe_get_requests resp i k ≤ k := by
  intro k
  induction k with
  | zero =>
    intro i
    simp [safe_get_requests]
  | succ k ih =>
    intro i
    simp only [safe_get_requests]
    split
    · omega
    · split
      · have := ih (i + 1)
        omega
      · split
        · omega
        · have := ih (i + 1)
          omega

/-- If every response consumed is non-terminal (neither 200 nor one of
403/401/404 — e.g. all 429s or 500s), the loop exhausts its budget and
returns `None`. -/
theorem safe_get_loop_all_nonterminal {α : Type} (resp : Nat → HttpResponse α) :
    ∀ (k i : Nat), (∀ j, j < k → nonTerminal (resp (i + j))) →
      safe_get_loop resp i k = SafeOutcome.ok none := by
  intro k
  induction k with
  | zero =>
    intro i _
    rfl
  | succ k ih =>
    intro i h
    have h0 := h 0 (by omega)
    rw [Nat.add_zero] at h0
    obtain ⟨h200, h403, h401, h404⟩ := h0
    have hs : ∀ j, j < k → nonTerminal (resp (i + 1 + j)) := by
      intro j hj
      have hz := h (j + 1) (by omega)
      rwa [show i + (j + 1) = i + 1 + j from by omega] at hz
    rw [safe_get_loop]
    rw [if_neg h200]
    by_cases h429 : (resp i).status = 429
    · rw [if_pos h429]
      exact ih (i + 1) hs
    · rw [if_neg h429, if_neg (by tauto)]
      exact ih (i + 1) hs

/-- The first terminal response decides the loop: a 200 returns its parsed
body (or propagates the parse exception), a 403/401/404 returns `None`. -/
theorem safe_get_loop_first_hit {α : Type} (resp : Nat → HttpResponse α) :
    ∀ (k m i : Nat), m < k → (∀ j, j < m → nonTerminal (resp (i + j))) →
      ((resp (i + m)).status = 200 →
        ∀ d, (resp (i + m)).body = some d →
          safe_get_loop resp i k = SafeOutcome.ok (some d)) ∧
      ((resp (i + m)).status = 403 ∨ (resp (i + m)).status = 401 ∨
          (resp (i + m)).status = 404 →
        safe_get_loop resp i k = SafeOutcome.ok none) := by
  intro k
  induction k with
  | zero =>
    intro m i hm
    omega
  | succ k ih =>
    intro m i hm h
    cases m with
    | zero =>
      constructor
      · intro h200 d hd
        rw [Nat.add_zero] at h200 hd
        rw [safe_get_loop, if_pos h200, hd]
      · intro hterm
        rw [Nat.add_zero] at hterm
        rw [safe_get_loop]
        rw [if_neg (by rcases hterm with h | h | h <;> omega)]
        rw [if_neg (by rcases hterm with h | h | h <;> omega)]
        rw [if_pos hterm]
    | succ m =>
      have h0 := h 0 (by omega)
      rw [Nat.add_zero] at h0
      obtain ⟨h200, h403, h401, h404⟩ := h0
      have hs : ∀ j, j < m → nonTerminal (resp (i + 1 + j)) := by
        intro j hj
        have hz := h (j + 1) (by omega)
        rwa [show i + (j + 1) = i + 1 + j from by omega] at hz
      have hrec := ih m (i + 1) (by omega) hs
      rw [show i + (m + 1) = i + 1 + m from by omega]
      rw [safe_get_loop, if_neg h200]
      by_cases h429 : (resp i).status = 429
      · rw [if_pos h429]
        exact hrec
      · rw [if_neg h429, if_neg (by tauto)]
        exact hrec

/-- C10: `fetch_match_data` and `fetch_timeline_data` both delegate to
`_safe_get` with `max_retries = 3`, which issues at most 3 requests for
every response stream; the first 200 response among them yields its parsed
body, the first 401/403/404 yields `None` immediately, and if all 3
attempts are consumed by non-terminal statuses (429s after a sleep, or any
other status such as 500, silently retried) the result is `None`. -/
theorem c10_safe_get_bounded (α : Type) (resp : Nat → HttpResponse α) :
    fetch_match_data resp = safe_get_loop resp 0 3 ∧
    fetch_timeline_data resp = safe_get_loop resp 0 3 ∧
    safe_get_requests resp 0 3 ≤ 3 ∧
    (∀ m, m < 3 → (∀ j, j < m → nonTerminal (resp j)) →
      ((resp m).status = 200 → ∀ d, (resp m).body = some d →
        fetch_match_data resp = SafeOutcome.ok (some d)) ∧
      ((resp m).status = 403 ∨ (resp m).status = 401 ∨ (resp m).status = 404 →
        fetch_match_data resp = SafeOutcome.ok none)) ∧
    ((∀ j, j < 3 → nonTerminal (resp j)) →
      fetch_match_data resp = SafeOutcome.ok none) := by
  refine ⟨rfl, rfl, safe_get_requests_le resp 3 0, ?_, ?_⟩
  · intro m hm h
    have hz : ∀ j, j < m → nonTerminal (resp (0 + j)) := by simpa using h
    have hh := safe_get_loop_first_hit resp 3 m 0 hm hz
    rw [Nat.zero_add] at hh
    exact ⟨fun h200 d hd => hh.1 h200 d hd, hh.2⟩
  · intro h
    exact safe_get_loop_all_nonterminal resp 3 0 (by simpa using h)

/-- Witness for C10: an all-429 server exhausts the 3 attempts to `None`;
a 500-then-429-then-200 server returns the 200's body on the third
request; a 429-then-404 server returns `None` on the second. -/
theorem c10_safe_get_bounded_witness :
    fetch_match_data c10all429 = SafeOutcome.ok none ∧
    fetch_match_data c10mix = SafeOutcome.ok (some 7) ∧
    fetch_match_data c10auth = SafeOutcome.ok none ∧
    safe_get_requests c10all429 0 3 ≤ 3 := by
  refine ⟨(c10_safe_get_bounded Nat c10all429).2.2.2.2 ?_,
          ((c10_safe_get_bounded Nat c10mix).2.2.2.1 2 (by omega) ?_).1
            (by decide) 7 (by decide),
          ((c10_safe_get_bounded Nat c10auth).2.2.2.1 1 (by omega) ?_).2 (by decide),
          (c10_safe_get_bounded Nat c10all429).2.2.1⟩
  · intro j hj
    simp [nonTerminal, c10all429]
  · intro j hj
    interval_cases j <;> simp [nonTerminal, c10mix]
  · intro j hj
    interval_cases j
    simp [nonTerminal, c10auth]

end LoLMatch
